import Mathlib

/-!
Verification of the VNH5019 motor-driver repository.

The development shallowly embeds the Python sources
`examples/VNH5019_driver.py` (class `VNH5019`) and
`examples/rotary_encoder.py` (class `RotaryEncoder`).

Modelling conventions:
* Python floats are modelled as rationals (`ℚ`); `datetime` values are
  rational timestamps in seconds, and `timedelta / timedelta(seconds=1)`
  becomes plain subtraction of timestamps.
* Python `int(x)` is truncation toward zero, modelled by `truncInt`.
* Code that can raise (`ZeroDivisionError` from a division whose divisor
  can be zero, `ValueError` from an explicit `raise`) is modelled with
  `Option`/error results; `none` (or an error value) marks the raise.
* The busy-wait loops poll shared state (`self.angle`,
  `self.rotation_speed`) that is mutated concurrently by the encoder
  callback, and call `datetime.now()` each tick.  A loop execution is
  therefore modelled against an explicit finite list of per-tick
  observations (angle read, speed read, clock read); an exhausted list
  means the loop was still running when observation stopped.
-/

namespace VNH5019

/-- Python `int(x)` applied to a rational: truncation toward zero. -/
def truncInt (q : ℚ) : ℤ := if 0 ≤ q then ⌊q⌋ else ⌈q⌉

/-! ## Motor output stage

`free`, `brake`, `_forward`, `_back`, `drive` and `cleanup` from
`VNH5019_driver.py`.  The pigpio/PCA9685 hardware boundary is modelled as
an explicit record of the two H-bridge pin levels, the PWM level last
written, the number of `pi.stop()` calls made, and the `in_exit` flag of
the driver. -/

/-- Hardware-facing state of one driver instance: H-bridge pin levels
(`pi.write(self.in1, _)` / `pi.write(self.in2, _)`), the PWM duty last
written (`self.pwm.setPWM(_)`), the number of `pi.stop()` resource
releases performed, and the `self.in_exit` flag. -/
structure HwState where
  in1 : ℕ
  in2 : ℕ
  pwm : ℕ
  stop_count : ℕ
  in_exit : Bool
deriving DecidableEq, Repr

/-- `VNH5019.free`: both pins low, PWM 0. -/
def free (s : HwState) : HwState :=
  { s with in1 := 0, in2 := 0, pwm := 0 }

/-- `VNH5019.brake`: both pins high, PWM 0. -/
def brake (s : HwState) : HwState :=
  { s with in1 := 1, in2 := 1, pwm := 0 }

/-- `VNH5019._forward`: pin1 high, pin2 low, PWM `abs(pwm_duty_cycle)`. -/
def forward (pwm_duty_cycle : ℤ) (s : HwState) : HwState :=
  { s with in1 := 1, in2 := 0, pwm := pwm_duty_cycle.natAbs }

/-- `VNH5019._back`: pin1 low, pin2 high, PWM `abs(pwm_duty_cycle)`. -/
def back (pwm_duty_cycle : ℤ) (s : HwState) : HwState :=
  { s with in1 := 0, in2 := 1, pwm := pwm_duty_cycle.natAbs }

/-- `VNH5019.drive`: positive duty forwards, negative duty backwards,
zero duty frees. -/
def drive (pwm_duty_cycle : ℤ) (s : HwState) : HwState :=
  if pwm_duty_cycle > 0 then forward pwm_duty_cycle s
  else if pwm_duty_cycle < 0 then back pwm_duty_cycle s
  else free s

/-- `VNH5019.cleanup`, registered with `atexit` in `__init__`:
`if not self.in_exit: return`, otherwise `free()`, `pi.stop()`,
`in_exit = True`. -/
def cleanup (s : HwState) : HwState :=
  if ¬ s.in_exit then s
  else { free s with stop_count := s.stop_count + 1, in_exit := true }

/-- Hardware state right after `__init__`: both control pins written low
and `self.in_exit = False`.  The PWM level is whatever the PCA9685
channel held (`pwm0`), and no `pi.stop()` has been issued. -/
def init_hw (pwm0 : ℕ) : HwState :=
  { in1 := 0, in2 := 0, pwm := pwm0, stop_count := 0, in_exit := false }

/-- The four documented output configurations of §4.3 of the spec. -/
inductive Mode
  | FORWARD
  | REVERSE
  | FREE
  | BRAKE
deriving DecidableEq, Repr

/-- Classify a pin/PWM state as one of the four documented
configurations, or `none` when the combination is forbidden (for
instance both pins high with nonzero PWM). -/
def configOf (s : HwState) : Option Mode :=
  if s.in1 = 1 ∧ s.in2 = 0 then some .FORWARD
  else if s.in1 = 0 ∧ s.in2 = 1 then some .REVERSE
  else if s.in1 = 0 ∧ s.in2 = 0 ∧ s.pwm = 0 then some .FREE
  else if s.in1 = 1 ∧ s.in2 = 1 ∧ s.pwm = 0 then some .BRAKE
  else none

/-! ## Encoder/PID soft state of the driver -/

/-- The mutable non-hardware attributes of a `VNH5019` instance: the
rotary-encoder bookkeeping (`count`, `prev_current_time`, `one_count`,
`rotation_speed`, `angle`, `prev_angle`) and the PID bookkeeping
(`diff`, `error`, `prev_time`, `print_counter`). -/
structure DriverState where
  count : ℚ
  prev_current_time : ℚ
  one_count : ℚ
  rotation_speed : ℚ
  angle : ℚ
  prev_angle : ℚ
  diff : ℚ
  error : ℚ
  prev_time : ℚ
  print_counter : ℕ
deriving DecidableEq, Repr

/-- `self.one_count = 360 * 4 / (64 * gear_ratio)` from `__init__`. -/
def init_one_count (gear_ratio : ℚ) : ℚ := 360 * 4 / (64 * gear_ratio)

/-- `VNH5019.callback(way)`, the handler handed to `RotaryEncoder`.
`current_time` models `datetime.now()`.  The update divides by
`elapsed_time` unconditionally; `none` models the `ZeroDivisionError`
raised when the two clock readings coincide.  (In the source `count`,
`angle` and the PID error sum are already mutated when the raise
happens; no theorem below depends on that partially-updated state, so
the model simply discards it.) -/
def callback (s : DriverState) (way : ℤ) (current_time : ℚ) :
    Option DriverState :=
  let count := s.count + (way : ℚ)
  let angle := count * s.one_count
  let elapsed_angle := angle - s.prev_angle
  let elapsed_time := current_time - s.prev_current_time
  if elapsed_time = 0 then none
  else some { s with
    count := count
    angle := angle
    rotation_speed := elapsed_angle / elapsed_time
    prev_current_time := current_time
    prev_angle := angle }

/-- `VNH5019.get_current_angle`. -/
def get_current_angle (s : DriverState) : ℚ := s.angle

/-- `VNH5019.get_rotation_speed`. -/
def get_rotation_speed (s : DriverState) : ℚ := s.rotation_speed

/-- `VNH5019.reset_angle`: `self.angle = 0; self.count = 0`. -/
def reset_angle (s : DriverState) : DriverState :=
  { s with angle := 0, count := 0 }

/-- `VNH5019.reset_PIDparams`: zero the error terms and restart the PID
clock at `now` (`datetime.now()`). -/
def reset_PIDparams (s : DriverState) (now : ℚ) : DriverState :=
  { s with error := 0, diff := 0, prev_time := now }

/-! ## Velocity commands -/

/-- Clamping of a duty cycle to `[-4095, 4095]` as written at the end of
`motor_speed`. -/
def clampDuty (duty : ℤ) : ℤ :=
  if duty > 4095 then 4095
  else if duty < -4095 then -4095
  else duty

/-- `VNH5019.motor_speed(speed)` reduced to the duty cycle it hands to
`drive`: `duty_cycle = int(5 * speed)` clamped to `[-4095, 4095]`. -/
def motor_speed (speed : ℚ) : ℤ :=
  clampDuty (truncInt (5 * speed))

/-- `VNH5019.motor_speed_EX(speed, KP, KI, KD)`: one feedback tick.
`current_time` models the `datetime.now()` read at the top of the call;
the current speed is read from `s.rotation_speed`
(`get_rotation_speed`).  Returns the updated driver state together with
the duty cycle handed to `drive` via `motor_speed`, or `none` for the
`ZeroDivisionError` raised by the `KD * self.error / delta_time` term
when `delta_time` is zero.  (In the source `self.diff` and `self.error`
are already mutated when the raise happens; no theorem below depends on
that partially-updated state.) -/
def motor_speed_EX (s : DriverState) (speed KP KI KD : ℚ)
    (current_time : ℚ) : Option (DriverState × ℤ) :=
  let current_speed := get_rotation_speed s
  let diff0 := speed - current_speed
  let diff := if |diff0| > 6000 then s.diff else diff0
  let error := s.error + diff
  let delta_time := current_time - s.prev_time
  if delta_time = 0 then none
  else
    let raw_gain := speed + KP * diff + KI * error * delta_time +
      KD * error / delta_time
    let sp := truncInt raw_gain
    some ({ s with
        diff := diff
        error := error
        prev_time := current_time
        print_counter := s.print_counter + 1 },
      motor_speed (sp : ℚ))

/-! ## Position-control loops

The `while True` loops of `rotate_motor` and `rotate_motor_EX` poll
shared state each tick.  They are modelled against a finite list of
per-tick observations. -/

/-- Output-stage commands issued by a control loop, abstracted to the
`drive`-level duty cycle (sign encodes `_forward` vs `_back`) plus the
discrete `brake` command. -/
inductive Out
  | driveCmd (duty : ℤ)
  | brakeCmd
deriving DecidableEq, Repr

/-- Errors that can escape `rotate_motor_EX`: the explicit
`ValueError("can't define KP as 0.0")`, or the `ZeroDivisionError` from
`motor_speed_EX`. -/
inductive Err
  | configKP
  | zeroDiv
deriving DecidableEq, Repr

/-- One tick's reads of the shared state inside a control loop: the
`get_current_angle()` value, the `get_rotation_speed()` value and the
`datetime.now()` value seen on that pass. -/
structure Obs where
  angle : ℚ
  speed : ℚ
  time : ℚ
deriving DecidableEq, Repr

/-- The second (settle) loop of `VNH5019.rotate_motor`, run over the list
of per-tick angle reads, starting from counter value `cnt` (0 at entry).
Each tick drives at duty 600 toward the target, then, when
`abs(diff) < one_count`, increments `cnt` and brakes as soon as
`cnt == 10`.  Returns the list of issued output commands; an exhausted
observation list means the loop was still spinning. -/
def rotate_motor_settle (one_count rotation_angle : ℚ) :
    List ℚ → ℕ → List Out
  | [], _ => []
  | a :: rest, cnt =>
    let diff := rotation_angle - a
    let cmd := if diff > 0 then Out.driveCmd 600 else Out.driveCmd (-600)
    if |diff| < one_count then
      if cnt + 1 = 10 then [cmd, Out.brakeCmd]
      else cmd :: rotate_motor_settle one_count rotation_angle rest (cnt + 1)
    else cmd :: rotate_motor_settle one_count rotation_angle rest cnt

/-- The magnitude clamp of `pow` in `rotate_motor_EX`: values below
`min_speed` in magnitude are pushed out to `±min_speed`, values above
`max_speed` are pulled back to `±max_speed`. -/
def rotateEX_clampPow (min_speed max_speed pow : ℤ) : ℤ :=
  if |pow| < min_speed then (if pow > 0 then min_speed else -min_speed)
  else if |pow| > max_speed then (if pow > 0 then max_speed else -max_speed)
  else pow

/-- The reduced-gain switch of `rotate_motor_EX`: when `flag == 1` the
inner-loop target becomes `pow / 6` and `KI = KD = 0`, otherwise `pow`
with the current `KI`, `KD` are used. -/
def rotateEX_regime (flag : ℕ) (pow : ℤ) (KI KD : ℚ) : ℚ × ℚ × ℚ :=
  if flag = 1 then ((pow : ℚ) / 6, 0, 0) else ((pow : ℚ), KI, KD)

/-- One tick's command selection in the `rotate_motor_EX` loop: from the
current angle read and the loop-carried `KI`, `KD`, `cnt`, `flag`,
compute the `(speed, KI, KD)` triple fed to `motor_speed_EX` together
with the updated `cnt` and `flag`.  Mirrors lines `diff = ... pow = KP *
diff ... if flag == 1: pow = pow / 6; KI = KD = 0` of the source. -/
def rotateEX_tick (rotation_angle KP KI KD one_count : ℚ)
    (max_speed min_speed : ℤ) (current_angle : ℚ) (cnt flag : ℕ) :
    (ℚ × ℚ × ℚ) × ℕ × ℕ :=
  let diff := rotation_angle - current_angle
  let pow := rotateEX_clampPow min_speed max_speed (truncInt (KP * diff))
  let flag1 := if |diff| ≤ one_count then 1 else flag
  let cnt1 := if |diff| ≤ one_count then cnt + 1 else cnt
  (rotateEX_regime flag1 pow KI KD, cnt1, flag1)

/-- The `while True` loop of `rotate_motor_EX`, run over the per-tick
observations.  Loop-carried state: the driver state `s` (threaded
through `motor_speed_EX`), the Python locals `KI`, `KD` (rebound to 0
whenever the reduced-gain branch runs), `cnt` and `flag`.  Returns the
issued output commands and, if the loop stopped on a raise, the error. -/
def rotateEX_loop (rotation_angle KP : ℚ) (max_speed min_speed : ℤ) :
    DriverState → List Obs → ℚ → ℚ → ℕ → ℕ → List Out × Option Err
  | _, [], _, _, _, _ => ([], none)
  | s, o :: rest, KI, KD, cnt, flag =>
    let tk := rotateEX_tick rotation_angle KP KI KD s.one_count
      max_speed min_speed o.angle cnt flag
    let powQ := tk.1.1
    let KI1 := tk.1.2.1
    let KD1 := tk.1.2.2
    let cnt1 := tk.2.1
    let flag1 := tk.2.2
    if cnt1 = 10 then ([Out.brakeCmd], none)
    else
      match motor_speed_EX { s with rotation_speed := o.speed }
          powQ KP KI1 KD1 o.time with
      | none => ([], some .zeroDiv)
      | some (s1, duty) =>
        let r := rotateEX_loop rotation_angle KP max_speed min_speed
          s1 rest KI1 KD1 cnt1 flag1
        (Out.driveCmd duty :: r.1, r.2)

/-- `VNH5019.rotate_motor_EX(rotation_angle, KP, KI, KD, max_speed,
min_speed)`: reset the PID parameters (at clock reading `t0`), set
`cnt = 0`, raise `ValueError` when `KP == 0`, set `flag = 1`, then run
the loop.  Returns the issued output commands and the error, if any. -/
def rotate_motor_EX (s : DriverState) (t0 : ℚ) (obs : List Obs)
    (rotation_angle KP KI KD : ℚ) (max_speed min_speed : ℤ) :
    List Out × Option Err :=
  let s0 := reset_PIDparams s t0
  if KP = 0 then ([], some .configKP)
  else rotateEX_loop rotation_angle KP max_speed min_speed s0 obs KI KD 0 1

/-! ## Quadrature decoder (`rotary_encoder.py`) -/

/-- The two encoder channels (`gpioA`, `gpioB`). -/
inductive Chan
  | A
  | B
deriving DecidableEq, Repr

/-- State of a `RotaryEncoder`: the stored levels `levA`, `levB`
(both 0 after `__init__`) and `lastGpio` (`None` after `__init__`). -/
structure DecState where
  levA : ℕ
  levB : ℕ
  lastGpio : Option Chan
deriving DecidableEq, Repr

/-- `RotaryEncoder` state right after `__init__`. -/
def init_dec : DecState := { levA := 0, levB := 0, lastGpio := none }

/-- `RotaryEncoder._pulse(gpio, level, tick)`: store the new level for
the edge's channel; when the channel differs from `lastGpio`
(debounce), record it and, on a level-1 edge of one channel with the
other channel's stored level at 1, fire the callback with `+1` (channel
A) or `-1` (channel B).  Returns the new state and the callback
argument (0 when the callback is not fired). -/
def pulse (s : DecState) (gpio : Chan) (level : ℕ) : DecState × ℤ :=
  let s1 := match gpio with
    | .A => { s with levA := level }
    | .B => { s with levB := level }
  if s1.lastGpio ≠ some gpio then
    let s2 := { s1 with lastGpio := some gpio }
    match gpio with
    | .A => if level = 1 ∧ s2.levB = 1 then (s2, 1) else (s2, 0)
    | .B => if level = 1 ∧ s2.levA = 1 then (s2, -1) else (s2, 0)
  else (s1, 0)

/-- One reported GPIO edge: channel, logic level, and the wall-clock
time at which the driver's callback would read `datetime.now()`. -/
structure Edge where
  gpio : Chan
  level : ℕ
  time : ℚ
deriving DecidableEq, Repr

/-- Process one edge through `RotaryEncoder._pulse`; when the callback
fires, run `VNH5019.callback` on the driver state (`none` when that
callback raises). -/
def processEdge (ds : DecState) (vs : DriverState) (e : Edge) :
    DecState × Option DriverState :=
  let p := pulse ds e.gpio e.level
  if p.2 = 0 then (p.1, some vs)
  else (p.1, callback vs p.2 e.time)

/-- Process a list of edges in order, aborting if the driver callback
raises. -/
def processEdges : DecState → DriverState → List Edge →
    Option (DecState × DriverState)
  | ds, vs, [] => some (ds, vs)
  | ds, vs, e :: rest =>
    match processEdge ds vs e with
    | (_, none) => none
    | (ds1, some vs1) => processEdges ds1 vs1 rest

/-- Net signed step count emitted by the decoder over a list of edges:
the sum of the callback arguments fired by `_pulse`. -/
def decDeltaSum : DecState → List Edge → ℤ
  | _, [] => 0
  | ds, e :: rest =>
    let p := pulse ds e.gpio e.level
    p.2 + decDeltaSum p.1 rest

/-- Fields of a successful `callback` run: the count advances by `way`,
the published angle is re-derived as `count * one_count`, and
`one_count` itself is untouched. -/
theorem callback_fields {s : DriverState} {way : ℤ} {t : ℚ}
    {s1 : DriverState} (h : callback s way t = some s1) :
    s1.count = s.count + (way : ℚ) ∧
    s1.angle = s1.count * s.one_count ∧
    s1.one_count = s.one_count := by
  simp only [callback] at h
  split_ifs at h
  cases h
  exact ⟨rfl, rfl, rfl⟩

/-- Position bookkeeping along any edge list: provided the published
angle initially satisfies `angle = count * one_count`, a successful run
of `processEdges` adds the decoder's net signed step count to `count`
and keeps `angle = count * one_count`. -/
theorem processEdges_position_aux :
    ∀ (es : List Edge) (ds : DecState) (vs : DriverState),
      vs.angle = vs.count * vs.one_count →
      ∀ ds1 vs1, processEdges ds vs es = some (ds1, vs1) →
        vs1.count = vs.count + decDeltaSum ds es ∧
        vs1.angle = vs1.count * vs.one_count ∧
        vs1.one_count = vs.one_count := by
  intro es
  induction es with
  | nil =>
    intro ds vs hInv ds1 vs1 h
    simp only [processEdges] at h
    cases h
    refine ⟨by simp [decDeltaSum], hInv, rfl⟩
  | cons e rest ih =>
    intro ds vs hInv ds1 vs1 h
    simp only [processEdges, processEdge] at h
    by_cases hz : (pulse ds e.gpio e.level).2 = 0
    · rw [if_pos hz] at h
      obtain ⟨hc, ha, ho⟩ := ih (pulse ds e.gpio e.level).1 vs hInv ds1 vs1 h
      refine ⟨?_, ha, ho⟩
      rw [hc]
      simp only [decDeltaSum, hz]
      push_cast
      ring
    · rw [if_neg hz] at h
      cases hcb : callback vs (pulse ds e.gpio e.level).2 e.time with
      | none =>
        rw [hcb] at h
        cases h
      | some vs2 =>
        rw [hcb] at h
        obtain ⟨hc2, ha2, ho2⟩ := callback_fields hcb
        obtain ⟨hc, ha, ho⟩ := ih (pulse ds e.gpio e.level).1 vs2
          (by rw [ha2, ho2]) ds1 vs1 h
        refine ⟨?_, ?_, ?_⟩
        · rw [hc, hc2]
          simp only [decDeltaSum]
          push_cast
          ring
        · rw [ha, ho2]
        · rw [ho, ho2]

/-! ## Sample states used by concrete witnesses and counterexamples -/

/-- A driver soft state with nonzero stored velocity and angle history,
used as a concrete input below. -/
def sampleDriver : DriverState :=
  { count := 4, prev_current_time := 5, one_count := 45 / 2
    rotation_speed := 7, angle := 90, prev_angle := 90
    diff := 0, error := 0, prev_time := 0, print_counter := 0 }

/-- The driver soft state as it looks right after `__init__` (all
bookkeeping zero) for `gear_ratio = 32` (so `one_count = 45/2`),
with the reference epoch taken as time 0. -/
def idleDriver : DriverState :=
  { count := 0, prev_current_time := 0, one_count := 45 / 2
    rotation_speed := 0, angle := 0, prev_angle := 0
    diff := 0, error := 0, prev_time := 0, print_counter := 0 }

/-- `clampDuty` always lands in `[-4095, 4095]`. -/
theorem clampDuty_lower (duty : ℤ) : -4095 ≤ clampDuty duty := by
  unfold clampDuty; split_ifs <;> omega

/-- `clampDuty` always lands in `[-4095, 4095]`. -/
theorem clampDuty_upper (duty : ℤ) : clampDuty duty ≤ 4095 := by
  unfold clampDuty; split_ifs <;> omega

/-- `truncInt` is the identity on integers. -/
theorem truncInt_intCast (n : ℤ) : truncInt (n : ℚ) = n := by
  simp [truncInt]

/-- Scaling an integer rational by 5 and truncating is exact. -/
theorem truncInt_five_mul_intCast (n : ℤ) :
    truncInt (5 * (n : ℚ)) = 5 * n := by
  rw [show (5 * (n : ℚ)) = ((5 * n : ℤ) : ℚ) by push_cast; ring,
    truncInt_intCast]

/-- The `rotate_motor_EX` loop body can only finish cleanly or with the
`ZeroDivisionError` of `motor_speed_EX`; the `ValueError` for `KP = 0`
is raised before the loop and never inside it. -/
theorem rotateEX_loop_no_configKP (rotation_angle KP : ℚ)
    (ms mins : ℤ) :
    ∀ (obs : List Obs) (s : DriverState) (KI KD : ℚ) (cnt flag : ℕ),
      (rotateEX_loop rotation_angle KP ms mins s obs KI KD
        cnt flag).2 ≠ some Err.configKP := by
  intro obs
  induction obs with
  | nil => intro s KI KD cnt flag; simp [rotateEX_loop]
  | cons o rest ih =>
    intro s KI KD cnt flag
    simp only [rotateEX_loop]
    split
    · simp
    · split
      · simp
      · simpa using ih _ _ _ _ _

/-- The settle counter of `rotate_motor` after one tick: incremented on
an under-threshold tick, carried over (never reset) otherwise. -/
theorem rotateEX_tick_cnt (rotation_angle KP KI KD oc : ℚ)
    (ms mins : ℤ) (angle : ℚ) (cnt flag : ℕ) :
    (rotateEX_tick rotation_angle KP KI KD oc ms mins
      angle cnt flag).2.1 =
      if |rotation_angle - angle| ≤ oc then cnt + 1 else cnt := rfl

/-- The regime flag of `rotate_motor_EX` after one tick. -/
theorem rotateEX_tick_flag (rotation_angle KP KI KD oc : ℚ)
    (ms mins : ℤ) (angle : ℚ) (cnt flag : ℕ) :
    (rotateEX_tick rotation_angle KP KI KD oc ms mins
      angle cnt flag).2.2 =
      if |rotation_angle - angle| ≤ oc then 1 else flag := rfl

/-- A brake command is never equal to a (conditionally chosen) drive
command. -/
theorem brake_ne_driveIf (c : Prop) [Decidable c] (d1 d2 : ℤ) :
    Out.brakeCmd ≠ (if c then Out.driveCmd d1 else Out.driveCmd d2) := by
  split_ifs <;> simp

/-- In the settle loop of `rotate_motor`, BRAKE is issued exactly when
the number of under-threshold ticks seen so far — counted cumulatively
from the starting counter value `cnt`, with no reset on over-threshold
ticks — reaches 10. -/
theorem settle_brake_iff_aux (oc target : ℚ) :
    ∀ (l : List ℚ) (cnt : ℕ), cnt ≤ 9 →
      (Out.brakeCmd ∈ rotate_motor_settle oc target l cnt ↔
        10 ≤ cnt + l.countP (fun a => decide (|target - a| < oc))) := by
  intro l
  induction l with
  | nil =>
    intro cnt h9
    simp [rotate_motor_settle]
    omega
  | cons a rest ih =>
    intro cnt h9
    by_cases hu : |target - a| < oc
    · by_cases h10 : cnt + 1 = 10
      · simp only [rotate_motor_settle, if_pos hu, if_pos h10]
        simp [List.countP_cons, hu]
        omega
      · simp only [rotate_motor_settle, if_pos hu, if_neg h10,
          List.mem_cons, List.countP_cons]
        rw [ih (cnt + 1) (by omega)]
        simp [brake_ne_driveIf, hu]
        omega
    · simp only [rotate_motor_settle, if_neg hu, List.mem_cons,
        List.countP_cons]
      rw [ih cnt h9]
      simp [brake_ne_driveIf, hu]

/-- `motor_speed_EX` never touches `one_count`. -/
theorem motor_speed_EX_one_count {s : DriverState} {speed KP KI KD t : ℚ}
    {s1 : DriverState} {duty : ℤ}
    (h : motor_speed_EX s speed KP KI KD t = some (s1, duty)) :
    s1.one_count = s.one_count := by
  simp only [motor_speed_EX] at h
  split_ifs at h <;> cases h <;> rfl

/-- In the `rotate_motor_EX` loop, provided the run finishes without a
`ZeroDivisionError`, BRAKE is issued exactly when the number of ticks
with `|error| ≤ one_count` — counted cumulatively from the starting
counter value `cnt`, with no reset on over-threshold ticks — reaches
10. -/
theorem rotateEX_brake_iff_aux (target KP : ℚ) (ms mins : ℤ) (oc : ℚ) :
    ∀ (obs : List Obs) (s : DriverState) (KI KD : ℚ) (cnt flag : ℕ),
      s.one_count = oc → cnt ≤ 9 →
      (rotateEX_loop target KP ms mins s obs KI KD cnt flag).2 = none →
      (Out.brakeCmd ∈
          (rotateEX_loop target KP ms mins s obs KI KD cnt flag).1 ↔
        10 ≤ cnt +
          obs.countP (fun o => decide (|target - o.angle| ≤ oc))) := by
  intro obs
  induction obs with
  | nil =>
    intro s KI KD cnt flag hoc h9 herr
    simp [rotateEX_loop]
    omega
  | cons o rest ih =>
    intro s KI KD cnt flag hoc h9 herr
    simp only [rotateEX_loop] at herr ⊢
    by_cases hu : |target - o.angle| ≤ oc
    · have hcnt : (rotateEX_tick target KP KI KD s.one_count ms mins
          o.angle cnt flag).2.1 = cnt + 1 := by
        rw [rotateEX_tick_cnt, hoc, if_pos hu]
      rw [hcnt] at herr ⊢
      by_cases h10 : cnt + 1 = 10
      · rw [if_pos h10]
        simp [List.countP_cons, hu]
        omega
      · rw [if_neg h10] at herr ⊢
        cases hm : motor_speed_EX { s with rotation_speed := o.speed }
            (rotateEX_tick target KP KI KD s.one_count ms mins
              o.angle cnt flag).1.1 KP
            (rotateEX_tick target KP KI KD s.one_count ms mins
              o.angle cnt flag).1.2.1
            (rotateEX_tick target KP KI KD s.one_count ms mins
              o.angle cnt flag).1.2.2 o.time with
        | none =>
          rw [hm] at herr
          simp at herr
        | some p =>
          obtain ⟨s1, duty⟩ := p
          rw [hm] at herr
          dsimp only at herr ⊢
          have hoc1 : s1.one_count = oc := by
            rw [motor_speed_EX_one_count hm]
            exact hoc
          rw [List.mem_cons,
            ih s1 _ _ (cnt + 1) _ hoc1 (by omega) herr]
          simp [List.countP_cons, hu]
          omega
    · have hcnt : (rotateEX_tick target KP KI KD s.one_count ms mins
          o.angle cnt flag).2.1 = cnt := by
        rw [rotateEX_tick_cnt, hoc, if_neg hu]
      rw [hcnt] at herr ⊢
      rw [if_neg (by omega : ¬ cnt = 10)] at herr ⊢
      cases hm : motor_speed_EX { s with rotation_speed := o.speed }
          (rotateEX_tick target KP KI KD s.one_count ms mins
            o.angle cnt flag).1.1 KP
          (rotateEX_tick target KP KI KD s.one_count ms mins
            o.angle cnt flag).1.2.1
          (rotateEX_tick target KP KI KD s.one_count ms mins
            o.angle cnt flag).1.2.2 o.time with
      | none =>
        rw [hm] at herr
        simp at herr
      | some p =>
        obtain ⟨s1, duty⟩ := p
        rw [hm] at herr
        dsimp only at herr ⊢
        have hoc1 : s1.one_count = oc := by
          rw [motor_speed_EX_one_count hm]
          exact hoc
        rw [List.mem_cons, ih s1 _ _ cnt _ hoc1 h9 herr]
        simp [List.countP_cons, hu]

end VNH5019

namespace VNH5019

/-- C2 counterexample: at `sampleDriver` (previous clock reading 5,
stored velocity 7) an encoder callback with clock reading 3 has
`Δtime = -2 < 0`, yet the stored velocity estimate changes from 7 to
`-45/4`: the division by the negative `Δtime` is performed and the
previous valid value is not retained.  A callback at clock reading 5
(`Δtime = 0`) raises `ZeroDivisionError` (modelled by `none`). -/
theorem callback_uses_negative_dt :
    (3 : ℚ) - sampleDriver.prev_current_time < 0 ∧
    sampleDriver.rotation_speed = 7 ∧
    (callback sampleDriver 1 3).map DriverState.rotation_speed =
      some (-45 / 4) ∧
    ((-45 / 4 : ℚ) ≠ 7) ∧
    callback sampleDriver 1 5 = none := by
  refine ⟨by norm_num [sampleDriver], rfl, ?_, by norm_num, ?_⟩
  · norm_num [callback, sampleDriver]
  · norm_num [callback, sampleDriver]

/-- C2 amended: the encoder callback performs the division
`Δangle / Δtime` unconditionally.  When the two clock readings coincide
(`Δtime = 0`) it raises `ZeroDivisionError`; for every other `Δtime`,
including negative ones, it overwrites the stored velocity with
`Δangle / Δtime` instead of retaining the previous valid value. -/
theorem callback_divides_unconditionally (s : DriverState) (way : ℤ)
    (t : ℚ) :
    (t - s.prev_current_time = 0 → callback s way t = none) ∧
    (t - s.prev_current_time ≠ 0 →
      callback s way t = some { s with
        count := s.count + (way : ℚ)
        angle := (s.count + (way : ℚ)) * s.one_count
        rotation_speed := ((s.count + (way : ℚ)) * s.one_count -
          s.prev_angle) / (t - s.prev_current_time)
        prev_current_time := t
        prev_angle := (s.count + (way : ℚ)) * s.one_count }) := by
  constructor
  · intro h
    simp only [callback]
    rw [if_pos h]
  · intro h
    simp only [callback]
    rw [if_neg h]

/-- Witness for `callback_divides_unconditionally` at concrete inputs:
at `sampleDriver`, a callback at time 5 hits `Δtime = 0` and raises,
and a callback at time 3 stores `Δangle / Δtime`. -/
theorem callback_divides_unconditionally_witness :
    callback sampleDriver 2 5 = none ∧
    callback sampleDriver 2 3 = some { sampleDriver with
      count := sampleDriver.count + ((2 : ℤ) : ℚ)
      angle := (sampleDriver.count + ((2 : ℤ) : ℚ)) * sampleDriver.one_count
      rotation_speed := ((sampleDriver.count + ((2 : ℤ) : ℚ)) *
        sampleDriver.one_count - sampleDriver.prev_angle) /
        (3 - sampleDriver.prev_current_time)
      prev_current_time := 3
      prev_angle := (sampleDriver.count + ((2 : ℤ) : ℚ)) *
        sampleDriver.one_count } :=
  ⟨(callback_divides_unconditionally sampleDriver 2 5).1
      (by norm_num [sampleDriver]),
    (callback_divides_unconditionally sampleDriver 2 3).2
      (by norm_num [sampleDriver])⟩

/-- C5 counterexample: the per-tick feedback computation
`motor_speed_EX` raises `ZeroDivisionError` (modelled by `none`) when
the tick's clock reading equals the previous one (`Δtime = 0`), because
of the `KD * self.error / delta_time` term — even with `KD = 0`; and
the error propagates out of the `rotate_motor_EX` loop to the caller
(the loop result carries `Err.zeroDiv`). -/
theorem motor_speed_EX_raises_on_equal_clock :
    motor_speed_EX sampleDriver 100 (1/2) 0 0 0 = none ∧
    (rotate_motor_EX sampleDriver 0 [⟨0, 0, 0⟩] 720 5 1 1 4095 800).2 =
      some Err.zeroDiv := by
  constructor
  · norm_num [motor_speed_EX, get_rotation_speed, sampleDriver]
  · norm_num [rotate_motor_EX, rotateEX_loop, rotateEX_tick,
      rotateEX_clampPow, rotateEX_regime, motor_speed_EX,
      reset_PIDparams, get_rotation_speed, sampleDriver, truncInt]

/-- C5 amended: whenever the tick's clock reading differs from the
previous one (`Δtime ≠ 0`), `motor_speed_EX` completes without raising
and the duty cycle it emits is clamped into `[-4095, 4095]`; when the
two readings coincide the `KD·error/Δtime` term raises
`ZeroDivisionError`, which propagates out of the control loops. -/
theorem motor_speed_EX_total_when_clock_advances (s : DriverState)
    (speed KP KI KD t : ℚ) (h : t - s.prev_time ≠ 0) :
    ∃ s1 duty, motor_speed_EX s speed KP KI KD t = some (s1, duty) ∧
      -4095 ≤ duty ∧ duty ≤ 4095 := by
  simp only [motor_speed_EX, motor_speed]
  rw [if_neg h]
  exact ⟨_, _, rfl, clampDuty_lower _, clampDuty_upper _⟩

/-- Witness for `motor_speed_EX_total_when_clock_advances` at a
concrete input with `Δtime = 1`. -/
theorem motor_speed_EX_total_witness :
    ∃ s1 duty, motor_speed_EX sampleDriver 100 (1/2) 0 0 1 =
      some (s1, duty) ∧ -4095 ≤ duty ∧ duty ≤ 4095 :=
  motor_speed_EX_total_when_clock_advances sampleDriver 100 (1/2) 0 0 1
    (by norm_num [sampleDriver])

/-- Angle reads alternating between on-target (0) and far-off (50):
ten under-threshold ticks, none of them consecutive. -/
def altAngles : List ℚ :=
  [0, 50, 0, 50, 0, 50, 0, 50, 0, 50, 0, 50, 0, 50, 0, 50, 0, 50, 0]

/-- C3 counterexample: with target 0 and `one_count = 1`, the settle
loop of `rotate_motor` run over `altAngles` — where under-threshold
ticks strictly alternate with far-off ticks, so no two consecutive
ticks are ever under threshold — still issues BRAKE (on the 10th
cumulative under-threshold tick): an over-threshold tick does not reset
the counter, contradicting the claimed requirement of ten
under-threshold ticks in a row. -/
theorem settle_brakes_without_ten_consecutive :
    Out.brakeCmd ∈ rotate_motor_settle 1 0 altAngles 0 ∧
    altAngles.Chain' (fun a b => ¬(|(0:ℚ) - a| < 1 ∧ |(0:ℚ) - b| < 1)) := by
  constructor
  · norm_num [rotate_motor_settle, altAngles, abs_lt]
  · norm_num [altAngles, List.chain'_cons, abs_lt]

/-- C3 amended: in the settle phase of `rotate_motor` BRAKE is issued
exactly when the cumulative number of ticks with `|error| < one_count`
reaches 10, counted without any reset on over-threshold ticks (the
ticks need not be consecutive); likewise the `rotate_motor_EX` loop —
when it runs without a `ZeroDivisionError` — issues BRAKE exactly when
the cumulative number of ticks with `|error| ≤ one_count` reaches
10. -/
theorem brake_on_tenth_cumulative_tick (oc target : ℚ) (l : List ℚ)
    (s : DriverState) (t0 KP KI KD : ℚ) (obs : List Obs)
    (ms mins : ℤ) :
    (Out.brakeCmd ∈ rotate_motor_settle oc target l 0 ↔
      10 ≤ l.countP (fun a => decide (|target - a| < oc))) ∧
    ((rotate_motor_EX s t0 obs target KP KI KD ms mins).2 = none →
      (Out.brakeCmd ∈
          (rotate_motor_EX s t0 obs target KP KI KD ms mins).1 ↔
        10 ≤ obs.countP
          (fun o => decide (|target - o.angle| ≤ s.one_count)))) := by
  constructor
  · simpa using settle_brake_iff_aux oc target l 0 (by omega)
  · intro herr
    by_cases hKP : KP = 0
    · rw [rotate_motor_EX, if_pos hKP] at herr
      cases herr
    · rw [rotate_motor_EX, if_neg hKP] at herr ⊢
      simpa using rotateEX_brake_iff_aux target KP ms mins s.one_count
        obs (reset_PIDparams s t0) KI KD 0 1 rfl (by omega) herr

/-- Ten consecutive on-target observation ticks with strictly
increasing clock reads. -/
def settleObs : List Obs :=
  [⟨0, 0, 1⟩, ⟨0, 0, 2⟩, ⟨0, 0, 3⟩, ⟨0, 0, 4⟩, ⟨0, 0, 5⟩,
   ⟨0, 0, 6⟩, ⟨0, 0, 7⟩, ⟨0, 0, 8⟩, ⟨0, 0, 9⟩, ⟨0, 0, 10⟩]

/-- Witness for `brake_on_tenth_cumulative_tick` at a concrete run of
`rotate_motor_EX`: ten on-target ticks with advancing clock produce a
clean run whose trace contains BRAKE. -/
theorem brake_on_tenth_cumulative_tick_witness :
    Out.brakeCmd ∈
      (rotate_motor_EX idleDriver 0 settleObs 0 5 0 0 4095 800).1 :=
  ((brake_on_tenth_cumulative_tick 1 0 [] idleDriver 0 5 0 0 settleObs
      4095 800).2
    (by norm_num [rotate_motor_EX, rotateEX_loop, rotateEX_tick,
      rotateEX_clampPow, rotateEX_regime, motor_speed_EX, motor_speed,
      reset_PIDparams, get_rotation_speed, idleDriver, settleObs,
      truncInt, clampDuty, abs_le, abs_lt, lt_abs, le_abs])).mpr
    (by norm_num [settleObs, idleDriver, List.countP_cons, abs_le])

/-- C9: the decoder accepts an edge only when its channel differs from
the previously recorded channel (`lastGpio`); an accepted level-1 edge
on A with the stored B level high fires `+1`, an accepted level-1 edge
on B with the stored A level high fires `-1`, every other edge fires
nothing; and along any edge list, a successful run keeps the published
angle equal to the net signed step count times the degrees-per-step
constant `360 * 4 / (64 * gear_ratio)`. -/
theorem decoder_position_exact (ds : DecState) (l : ℕ)
    (es : List Edge) (vs : DriverState) :
    ((pulse ds .A l).2 =
      if ds.lastGpio ≠ some .A ∧ l = 1 ∧ ds.levB = 1 then 1 else 0) ∧
    ((pulse ds .B l).2 =
      if ds.lastGpio ≠ some .B ∧ l = 1 ∧ ds.levA = 1 then -1 else 0) ∧
    (∀ (g : Chan) (lv : ℕ), ds.lastGpio = some g →
      (pulse ds g lv).2 = 0) ∧
    (∀ gear_ratio : ℚ, vs.one_count = init_one_count gear_ratio →
      vs.angle = vs.count * vs.one_count →
      ∀ ds1 vs1, processEdges ds vs es = some (ds1, vs1) →
        vs1.count = vs.count + decDeltaSum ds es ∧
        vs1.angle = vs1.count * init_one_count gear_ratio) := by
  refine ⟨?_, ?_, ?_, ?_⟩
  · simp only [pulse]
    split_ifs <;> simp_all
  · simp only [pulse]
    split_ifs <;> simp_all
  · intro g lv hg
    cases g <;> simp [pulse, hg]
  · intro gear_ratio hoc hInv ds1 vs1 h
    obtain ⟨hc, ha, ho⟩ := processEdges_position_aux es ds vs hInv ds1 vs1 h
    exact ⟨hc, by rw [ha, hoc]⟩

/-- Witness for `decoder_position_exact` on a concrete run: starting
from `init_dec` and `idleDriver` (whose `one_count` is `init_one_count
1 = 45/2`), the edge list `B rises at 1, A rises at 2` fires one `+1`
step and the published angle lands at `1 × 45/2`. -/
theorem decoder_position_exact_witness :
    ∃ ds1 vs1, processEdges init_dec idleDriver
        [⟨Chan.B, 1, 1⟩, ⟨Chan.A, 1, 2⟩] = some (ds1, vs1) ∧
      vs1.count = idleDriver.count +
        decDeltaSum init_dec [⟨Chan.B, 1, 1⟩, ⟨Chan.A, 1, 2⟩] ∧
      vs1.angle = vs1.count * init_one_count 1 := by
  have hp1 : pulse init_dec Chan.B 1 = (⟨0, 1, some Chan.B⟩, 0) := rfl
  have hp2 : pulse ⟨0, 1, some Chan.B⟩ Chan.A 1 =
    (⟨1, 1, some Chan.A⟩, 1) := rfl
  have hcb : callback idleDriver 1 2 = some { idleDriver with
      count := 1, angle := 45/2, rotation_speed := 45/4,
      prev_current_time := 2, prev_angle := 45/2 } := by
    norm_num [callback, idleDriver]
  have hproc : processEdges init_dec idleDriver
      [⟨Chan.B, 1, 1⟩, ⟨Chan.A, 1, 2⟩] =
      some (⟨1, 1, some Chan.A⟩, { idleDriver with
        count := 1, angle := 45/2, rotation_speed := 45/4,
        prev_current_time := 2, prev_angle := 45/2 }) := by
    simp only [processEdges, processEdge, hp1, hp2, hcb]
    norm_num [hp2, hcb]
  obtain ⟨hc, ha⟩ := (decoder_position_exact init_dec 1
      [⟨Chan.B, 1, 1⟩, ⟨Chan.A, 1, 2⟩] idleDriver).2.2.2 1
    (by norm_num [idleDriver, init_one_count])
    (by norm_num [idleDriver]) _ _ hproc
  exact ⟨_, _, hproc, hc, ha⟩

/-- C6: calling `rotate_motor_EX` with `KP = 0` raises the
`ValueError` (`Err.configKP`) immediately, with the empty list of
output commands — no pin write or PWM write precedes it; and for every
`KP ≠ 0` that error is never raised. -/
theorem rotate_motor_EX_KP_zero_check (s : DriverState) (t0 : ℚ)
    (obs : List Obs) (rotation_angle KP KI KD : ℚ) (ms mins : ℤ) :
    (KP = 0 → rotate_motor_EX s t0 obs rotation_angle KP KI KD ms mins =
      ([], some Err.configKP)) ∧
    (KP ≠ 0 → (rotate_motor_EX s t0 obs rotation_angle KP KI KD
      ms mins).2 ≠ some Err.configKP) := by
  constructor
  · intro h
    simp [rotate_motor_EX, h]
  · intro h
    simp only [rotate_motor_EX]
    rw [if_neg h]
    exact rotateEX_loop_no_configKP rotation_angle KP ms mins obs _ KI KD 0 1

/-- Witness for `rotate_motor_EX_KP_zero_check` at concrete inputs:
with `KP = 0` the call fails with the configuration error before any
output; with `KP = 5` it never produces that error. -/
theorem rotate_motor_EX_KP_zero_check_witness :
    rotate_motor_EX idleDriver 0 [] 720 0 0 0 4095 800 =
      ([], some Err.configKP) ∧
    (rotate_motor_EX idleDriver 0 [] 720 5 0 0 4095 800).2 ≠
      some Err.configKP :=
  ⟨(rotate_motor_EX_KP_zero_check idleDriver 0 [] 720 0 0 0 4095 800).1
      rfl,
    (rotate_motor_EX_KP_zero_check idleDriver 0 [] 720 5 0 0 4095 800).2
      (by norm_num)⟩

/-- C4: the claim says the reduced-gain regime (`pow / 6`, `KI = KD =
0`) only starts once the positional error first reaches `≤ one_count`.
In the source the regime flag is set to 1 *before* the loop and never
set to 0, so the reduced regime is active from the very first tick.
Evaluated at `rotate_motor_EX`'s entry values `cnt = 0`, `flag = 1`
with target 720, current angle 0, `one_count = 45/2`, `KP = 5`,
`KI = KD = 1`, `min_speed = 800`, `max_speed = 4095`: the error 720 is
far above `one_count`, the clamped proportional value is 3600, yet the
tick feeds the inner controller `(3600/6, 0, 0) = (600, 0, 0)` instead
of `(3600, 1, 1)`.  Running the full `rotate_motor_EX` on one such tick
(target 100, `one_count = 1/10`, speed read 0, `Δtime = 1`) emits duty
4000 — the duty of the reduced command `800/6`, where the full-gain
command 800 would have emitted 4095. -/
theorem rotateEX_reduced_gain_from_first_tick :
    |(720 : ℚ) - 0| > 45/2 ∧
    rotateEX_tick 720 5 1 1 (45/2) 4095 800 0 0 1 = ((600, 0, 0), 0, 1) ∧
    ((600 : ℚ), (0 : ℚ), (0 : ℚ)) ≠ ((3600 : ℚ), (1 : ℚ), (1 : ℚ)) ∧
    (rotate_motor_EX { idleDriver with one_count := 1/10 } 0
      [⟨0, 0, 1⟩] 100 5 0 0 4095 800).1 = [Out.driveCmd 4000] ∧
    Out.driveCmd 4000 ≠ Out.driveCmd 4095 := by
  refine ⟨by norm_num, ?_, by norm_num, ?_, by simp⟩
  · norm_num [rotateEX_tick, rotateEX_clampPow, rotateEX_regime,
      truncInt, abs_le]
  · norm_num [rotate_motor_EX, rotateEX_loop, rotateEX_tick,
      rotateEX_clampPow, rotateEX_regime, motor_speed_EX, motor_speed,
      reset_PIDparams, get_rotation_speed, idleDriver, truncInt,
      clampDuty, abs_le, abs_lt, lt_abs, le_abs]

/-- C8 counterexample: at the freshly-reset `idleDriver` a tick of
`motor_speed_EX` with target 1.9, all gains 0 and `Δtime = 1` has
command `= 1.9`, but the emitted duty cycle is `5 * int(1.9) = 5`,
which differs from any rounding of `5 × 1.9 = 9.5` by more than one
half: the code truncates the command to an integer before multiplying
by 5, instead of rounding `5 × command`. -/
theorem duty_is_not_round_of_5_command :
    (motor_speed_EX idleDriver (19/10) 0 0 0 1).map Prod.snd = some 5 ∧
    ¬ |(5 : ℚ) - 5 * (19/10)| ≤ 1/2 := by
  constructor
  · norm_num [motor_speed_EX, motor_speed, get_rotation_speed,
      clampDuty, truncInt, idleDriver]
  · norm_num [abs_le]

/-- C8 amended: for every tick with `Δtime ≠ 0` the command equals
`target + KP·error + KI·integral·Δtime + KD·integral/Δtime` (with
`error` the retained velocity error and `integral` its running sum,
both updated first), and the emitted duty cycle equals
`5 × int(command)` — the command truncated toward zero, then scaled by
5 — clamped to `[-4095, 4095]`. -/
theorem motor_speed_EX_duty_formula (s : DriverState)
    (speed KP KI KD t : ℚ) (h : t - s.prev_time ≠ 0) :
    motor_speed_EX s speed KP KI KD t =
      (fun diff =>
        (fun error =>
          some ({ s with
              diff := diff
              error := error
              prev_time := t
              print_counter := s.print_counter + 1 },
            clampDuty (5 * truncInt (speed + KP * diff +
              KI * error * (t - s.prev_time) +
              KD * error / (t - s.prev_time)))))
        (s.error + diff))
      (if |speed - s.rotation_speed| > 6000 then s.diff
        else speed - s.rotation_speed) := by
  simp only [motor_speed_EX, motor_speed, get_rotation_speed]
  rw [if_neg h, truncInt_five_mul_intCast]

/-- Witness for `motor_speed_EX_duty_formula`, evaluated at the C8
counterexample input: the duty emitted for command 1.9 is 5. -/
theorem motor_speed_EX_duty_formula_witness :
    motor_speed_EX idleDriver (19/10) 0 0 0 1 =
      some ({ idleDriver with
        diff := 19/10, error := 19/10, prev_time := 1,
        print_counter := 1 }, 5) := by
  rw [motor_speed_EX_duty_formula idleDriver (19/10) 0 0 0 1
    (by norm_num [idleDriver])]
  norm_num [idleDriver, truncInt, clampDuty, abs_le]

/-- C1: the claim says the registered cleanup path drives the output
stage to FREE and calls `pi.stop()` exactly once across repeated
invocations.  The code's guard is inverted: `cleanup` begins with
`if not self.in_exit: return` while `__init__` sets `self.in_exit =
False` and nothing ever sets it to `True` before `cleanup` runs, so the
registered cleanup returns immediately.  Evaluated at a driver that was
driving forward at duty 3000 when the process exited: two invocations
of `cleanup` leave the state untouched (pin1 still high, PWM still
3000) and perform zero `pi.stop()` release calls, not one. -/
theorem cleanup_releases_nothing :
    cleanup (cleanup (forward 3000 (init_hw 0))) = forward 3000 (init_hw 0) ∧
    (forward 3000 (init_hw 0)).in1 = 1 ∧
    (forward 3000 (init_hw 0)).pwm = 3000 ∧
    (cleanup (cleanup (forward 3000 (init_hw 0)))).stop_count = 0 :=
  ⟨rfl, rfl, rfl, rfl⟩

/-- C7: after any single output operation — `drive d` with `d > 0`
(FORWARD: pin1 high, pin2 low, PWM `d`), `drive d` with `d < 0`
(REVERSE: pin1 low, pin2 high, PWM `|d|`), `drive 0`/`free` (FREE: both
pins low, PWM 0), or `brake` (BRAKE: both pins high, PWM 0) — the
pin/PWM state classifies as exactly the documented configuration; in
particular `configOf` never returns `none`, so no forbidden combination
such as both pins high with nonzero PWM is ever emitted. -/
theorem output_always_documented_config (s : HwState) (d : ℤ) :
    configOf (drive d s) =
      some (if 0 < d then Mode.FORWARD
        else if d < 0 then Mode.REVERSE else Mode.FREE) ∧
    (drive d s).pwm = d.natAbs ∧
    configOf (brake s) = some Mode.BRAKE ∧ (brake s).pwm = 0 ∧
    configOf (free s) = some Mode.FREE ∧ (free s).pwm = 0 := by
  refine ⟨?_, ?_, ?_, rfl, ?_, rfl⟩
  · simp only [drive, forward, back, free, configOf]
    split_ifs <;> simp_all
  · simp only [drive, forward, back, free]
    split_ifs with h1 h2 <;> simp_all
    omega
  · simp [brake, configOf]
  · simp [free, configOf]

/-- C10: `reset_angle` zeroes `angle` and `count` and leaves every other
field of the driver state unchanged; in particular `prev_angle` and
`rotation_speed` keep their pre-reset values, `get_rotation_speed`
still reports the pre-reset velocity, and the first encoder callback
after the reset computes its angle delta against the stale pre-reset
`prev_angle` (the stored velocity becomes
`(way * one_count - prev_angle) / Δt`). -/
theorem reset_angle_frame (s : DriverState) (way : ℤ) (t : ℚ) :
    (reset_angle s).angle = 0 ∧ (reset_angle s).count = 0 ∧
    (reset_angle s).prev_angle = s.prev_angle ∧
    (reset_angle s).rotation_speed = s.rotation_speed ∧
    (reset_angle s).prev_current_time = s.prev_current_time ∧
    (reset_angle s).one_count = s.one_count ∧
    (reset_angle s).diff = s.diff ∧
    (reset_angle s).error = s.error ∧
    (reset_angle s).prev_time = s.prev_time ∧
    (reset_angle s).print_counter = s.print_counter ∧
    get_rotation_speed (reset_angle s) = get_rotation_speed s ∧
    (t - s.prev_current_time ≠ 0 →
      (callback (reset_angle s) way t).map DriverState.rotation_speed =
        some (((way : ℚ) * s.one_count - s.prev_angle) /
          (t - s.prev_current_time))) := by
  refine ⟨rfl, rfl, rfl, rfl, rfl, rfl, rfl, rfl, rfl, rfl, rfl, ?_⟩
  intro h
  simp only [callback, reset_angle]
  rw [if_neg h]
  simp [zero_add]

/-- Witness for `reset_angle_frame` at a concrete input: after resetting
`sampleDriver` (whose stale `prev_angle` is 90 and whose clock last ran
at 5), a callback with `way = 1` at time 3 stores the velocity computed
against the stale `prev_angle`. -/
theorem reset_angle_frame_witness :
    (3 - sampleDriver.prev_current_time ≠ 0) ∧
    (callback (reset_angle sampleDriver) 1 3).map DriverState.rotation_speed =
      some (((1 : ℚ) * sampleDriver.one_count - sampleDriver.prev_angle) /
        (3 - sampleDriver.prev_current_time)) :=
  ⟨by norm_num [sampleDriver],
    (reset_angle_frame sampleDriver 1 3).2.2.2.2.2.2.2.2.2.2.2
      (by norm_num [sampleDriver])⟩

end VNH5019
